import Mathlib

/-!
Verification of the agricheck backend against its specification.

This file gives a shallow embedding, in Lean 4, of the parts of the
backend that the spec's claims are about:

* `app/core/security.py`   — password hashing, security-answer hashing,
  JWT issue/verify for password-reset tokens;
* `app/auth/password_reset.py` — the security-question reset flow
  (`verify_user_security_answer`, `reset_user_password`);
* `app/auth/routes.py`     — the plain forgot/reset pathway
  (`forgot_password`, `reset_password`) and the exception-mapping
  wrapper of `reset_password_security_questions`;
* `app/ml/image_validation.py` — the image admission gate
  (`calculate_blur_score`, `is_image_blurry`, `detect_leaf_features`,
  `validate_image_for_scan`);
* `app/ml/model_service.py` — `ModelService.predict` and
  `ModelService._mock_predict`;
* `app/scans/routes.py`    — the exception-mapping clause of `scan_image`.

Modelling conventions:

* Machine reals (Python floats) are modelled as `ℚ`; the constants the
  code compares against (20.0, 50.0, 0.15, 0.05, 98.7, …) are exact in
  both models.  `round(x, 2)` and `f"{x:.1f}"` round half-to-even on the
  exact rational (Python rounds half-to-even on the binary double; the
  two agree off the half-way ties, which no claim touches).
* Wall-clock instants are `Int` seconds.  A Python `datetime` is a
  `PyDateTime`: `instant` is the UTC instant it denotes, `aware` records
  whether a `tzinfo` is attached.  The code normalises naive values with
  `replace(tzinfo=timezone.utc)` — i.e. it reads the naive wall time as
  UTC — so comparisons are comparisons of `instant`.
* A JWT string is a `TokenStr`: `signed p` stands for a well-formed
  token signed with the server's `SECRET_KEY` and payload `p`; any other
  string is `invalid s`.  `jwt.decode` checks the signature and the
  `exp` claim and raises `JWTError` otherwise.
* bcrypt is modelled as a deterministic digest of the 72-byte-truncated
  UTF-8 encoding of the secret: `verify_password p h` holds iff `h` was
  produced by `hash_password` from a secret with the same truncation.
  (Salting makes real digests non-deterministic; no claim depends on
  that, only on verify-after-hash behaviour.)
* The database session is passed explicitly: `Db` is the list of `User`
  rows, `db.query(User).filter(User.email == e).first()` is `findUser`,
  and a mutate-then-commit is `updateUser`.  A commit that can fail
  under a `try/except` is given an explicit `commitOk : Bool` outcome.
* `HTTPException(status_code, detail)` is `HErr`; a routine that can
  raise it returns `Except HErr _`.
-/

/-! ## Python-value helpers -/

/-- Truthiness of an optional Python string: `None` and `""` are falsy. -/
def strFalsy : Option String → Bool
  | none => true
  | some s => s == ""

/-- Whitespace for Python `str.strip()` (the ASCII whitespace set; the
secrets and answers this model strips are ASCII). -/
def pyWhitespace (c : Char) : Bool :=
  c == ' ' || c == '\t' || c == '\n' || c == '\r' || c == '\x0b' || c == '\x0c'

/-- Python `str.strip()`. -/
def pyStrip (s : String) : String :=
  String.mk (((s.data.dropWhile pyWhitespace).reverse.dropWhile pyWhitespace).reverse)

/-- Python `str.lower()` (ASCII case mapping). -/
def pyLower (s : String) : String :=
  String.mk (s.data.map Char.toLower)

/-- `HTTPException` as raised by the handlers: an HTTP status code plus a
`detail` message. -/
structure HErr where
  status_code : Nat
  detail : String
deriving DecidableEq

/-- A Python `datetime`: the UTC instant it denotes (seconds), and whether
it carries a `tzinfo`.  The code reads naive values as UTC
(`replace(tzinfo=timezone.utc)`), so `instant` is the value that all
comparisons use. -/
structure PyDateTime where
  instant : Int
  aware : Bool
deriving DecidableEq

/-! ## `app/core/security.py` -/

/-- `_truncate_password`: truncate the UTF-8 encoding to 72 bytes, as
required by bcrypt. -/
def _truncate_password (password : String) : List UInt8 :=
  (password.data.flatMap String.utf8EncodeChar).take 72

/-- `hash_password`: bcrypt digest of the truncated password.  Modelled
deterministically (see the header); the `"$bcrypt$"` marker keeps digests
disjoint from ordinary strings. -/
def hash_password (password : String) : String :=
  "$bcrypt$" ++ toString (_truncate_password password)

/-- `verify_password`: `bcrypt.checkpw` on the truncated password —
true iff the digest was produced from a secret with the same 72-byte
truncation. -/
def verify_password (password : String) (hashed : String) : Bool :=
  hashed == hash_password password

/-- `hash_security_answer`: lowercase, strip, then hash. -/
def hash_security_answer (answer : String) : String :=
  hash_password (pyStrip (pyLower answer))

/-- `verify_security_answer`: lowercase, strip, then verify (so answer
comparison is case- and surrounding-whitespace-insensitive). -/
def verify_security_answer (answer : String) (hashed : String) : Bool :=
  verify_password (pyStrip (pyLower answer)) hashed

/-- Payload of a JWT issued by this backend: `sub`, `exp`, and the
optional `type` claim. -/
structure JwtPayload where
  sub : Option String
  exp : Int
  typ : Option String
deriving DecidableEq

/-- A string in token position: either a well-formed JWT signed with the
server's secret (`signed`), or any other string (`invalid`). -/
inductive TokenStr where
  | signed (p : JwtPayload)
  | invalid (s : String)
deriving DecidableEq

/-- Truthiness of an optional Python token string. -/
def tokenFalsy : Option TokenStr → Bool
  | none => true
  | some (.invalid s) => s == ""
  | some (.signed _) => false

/-- `jose.jwt.decode(token, SECRET_KEY)`: succeeds iff the signature is
valid and the `exp` claim has not passed (`None` here stands for the
raised `JWTError`). -/
def jwt_decode (token : TokenStr) (now : Int) : Option JwtPayload :=
  match token with
  | .invalid _ => none
  | .signed p => if p.exp < now then none else some p

/-- `create_password_reset_token`: payload
`{"sub": email, "exp": now + minutes, "type": "password_reset"}`. -/
def create_password_reset_token (email : String) (expires_minutes : Int)
    (now : Int) : TokenStr :=
  .signed { sub := some email, exp := now + expires_minutes * 60,
            typ := some "password_reset" }

/-- `verify_password_reset_token`: decode; reject unless the `type`
claim is `"password_reset"`; return the `sub` claim (or `None`). -/
def verify_password_reset_token (token : TokenStr) (now : Int) : Option String :=
  match jwt_decode token now with
  | none => none
  | some payload =>
      if payload.typ ≠ some "password_reset" then none
      else payload.sub

/-! ## `app/db/models.py` — the `User` row and the session -/

/-- A `users` row (the columns the reset flow touches; answer columns
hold bcrypt digests as produced by `hash_security_answer`). -/
structure UserRow where
  email : String
  password_hash : String
  reset_token : Option TokenStr
  reset_token_expires : Option PyDateTime
  security_question_1 : Option String
  security_answer_1 : Option String
  security_question_2 : Option String
  security_answer_2 : Option String
  security_question_3 : Option String
  security_answer_3 : Option String
deriving DecidableEq

/-- The `users` table. -/
abbrev Db := List UserRow

/-- `db.query(User).filter(User.email == email).first()`. -/
def findUser (email : String) (db : Db) : Option UserRow :=
  db.find? (fun u => u.email == email)

/-- Mutate the row(s) with the given email and commit. -/
def updateUser (email : String) (f : UserRow → UserRow) (db : Db) : Db :=
  db.map (fun u => if u.email == email then f u else u)

/-! ## `app/auth/password_reset.py` -/

def msg_user_not_found : String :=
  "Hindi nahanap ang user. Pakisiguro na tama ang email."
def msg_question_not_found : String :=
  "Hindi nahanap ang security question. Pakisubukang muli."
def msg_invalid_index : String :=
  "Hindi valid ang question index. Dapat ay 0, 1, o 2."
def msg_wrong_answer : String :=
  "Maling sagot. Pakisubukang muli."
def msg_password_empty : String :=
  "Ang password ay hindi dapat walang laman."
def msg_password_short : String :=
  "Ang password ay dapat hindi bababa sa 8 characters."
def msg_token_not_matching : String :=
  "Hindi valid ang reset token. Pakisubukang muli o mag-verify muli ng security answer."
def msg_token_expired : String :=
  "Nag-expire na ang reset token. Pakisubukang muli o mag-verify muli ng security answer."
def msg_token_jwt_invalid : String :=
  "Hindi valid o nag-expire na ang reset token. Pakisubukang muli."
def msg_update_failed : String :=
  "May problema sa pag-update ng password. Pakisubukang muli."

/-- `verify_user_security_answer(email, question_index, answer, db)`:
look the user up, pick the indexed question/answer pair, verify the
normalized answer, then issue a 30-minute purpose-tagged reset token,
persist it (and its expiry) on the row, commit, and return it.  `now`
is the wall clock at the call. -/
def verify_user_security_answer (email : String) (question_index : Int)
    (answer : String) (db : Db) (now : Int) : Except HErr (TokenStr × Db) :=
  match findUser email db with
  | none => .error ⟨404, msg_user_not_found⟩
  | some user =>
    let checked : Except HErr Bool :=
      if question_index = 0 then
        if strFalsy user.security_question_1 ∨ strFalsy user.security_answer_1 then
          .error ⟨400, msg_question_not_found⟩
        else
          .ok (verify_security_answer answer (user.security_answer_1.getD ""))
      else if question_index = 1 then
        if strFalsy user.security_question_2 ∨ strFalsy user.security_answer_2 then
          .error ⟨400, msg_question_not_found⟩
        else
          .ok (verify_security_answer answer (user.security_answer_2.getD ""))
      else if question_index = 2 then
        if strFalsy user.security_question_3 ∨ strFalsy user.security_answer_3 then
          .error ⟨400, msg_question_not_found⟩
        else
          .ok (verify_security_answer answer (user.security_answer_3.getD ""))
      else
        .error ⟨400, msg_invalid_index⟩
    match checked with
    | .error e => .error e
    | .ok is_correct =>
      if ¬ is_correct then .error ⟨400, msg_wrong_answer⟩
      else
        let reset_token := create_password_reset_token email 30 now
        let reset_token_expires : PyDateTime := ⟨now + 30 * 60, true⟩
        .ok (reset_token,
             updateUser email
               (fun u => { u with reset_token := some reset_token,
                                  reset_token_expires := some reset_token_expires })
               db)

/-- `reset_user_password(email, reset_token, new_password, db)`: validate
the new password, look the user up, require the supplied token to equal
the persisted `reset_token` (Python truthiness also rejects a persisted
`None`/`""`), require a persisted unexpired `reset_token_expires` (naive
values read as UTC), independently re-verify the JWT's signature /
purpose / subject against the email, then overwrite the password hash,
clear both token fields and commit.  `commitOk` is the outcome of that
final commit; on failure the session is rolled back and an opaque 500 is
raised. -/
def reset_user_password (email : String) (reset_token : TokenStr)
    (new_password : String) (db : Db) (now : Int) (commitOk : Bool) :
    Except HErr Db :=
  if new_password = "" ∨ pyStrip new_password = "" then
    .error ⟨400, msg_password_empty⟩
  else if (pyStrip new_password).length < 8 then
    .error ⟨400, msg_password_short⟩
  else
    match findUser email db with
    | none => .error ⟨404, msg_user_not_found⟩
    | some user =>
      if tokenFalsy user.reset_token ∨ user.reset_token ≠ some reset_token then
        .error ⟨400, msg_token_not_matching⟩
      else
        match user.reset_token_expires with
        | none => .error ⟨400, msg_token_expired⟩
        | some expires =>
          -- naive `expires` is re-read as UTC: `instant` already is that reading
          if expires.instant < now then
            .error ⟨400, msg_token_expired⟩
          else
            -- email_from_token = verify_password_reset_token(reset_token)
            if strFalsy (verify_password_reset_token reset_token now) ∨
               verify_password_reset_token reset_token now ≠ some email then
              .error ⟨400, msg_token_jwt_invalid⟩
            else
              if commitOk then
                .ok (updateUser email
                      (fun u => { u with
                                  password_hash := hash_password new_password,
                                  reset_token := none,
                                  reset_token_expires := none })
                      db)
              else
                .error ⟨500, msg_update_failed⟩

/-! ## Exception mapping of the two handlers (claim C9) -/

/-- A raised Python exception: its type's `__name__` and its `str(e)`. -/
structure PyExn where
  typeName : String
  msg : String
deriving DecidableEq

/-- What the body of `reset_password_security_questions` can raise. -/
inductive RouteErr where
  | http (e : HErr)
  | exn (e : PyExn)
deriving DecidableEq

def charsStartWith : List Char → List Char → Bool
  | _, [] => true
  | [], _ :: _ => false
  | c :: cs, p :: ps => c == p && charsStartWith cs ps

def charsContain : List Char → List Char → Bool
  | [], pat => charsStartWith [] pat
  | c :: tl, pat => charsStartWith (c :: tl) pat || charsContain tl pat

/-- Python's `sub in s` substring test. -/
def containsSub (s sub : String) : Bool :=
  charsContain s.data sub.data

def msg_db_problem : String :=
  "May problema sa database. Pakisubukang muli."
def msg_reset_generic : String :=
  "May problema sa pag-reset ng password. Pakisubukang muli."

/-- The `try/except` wrapper of `reset_password_security_questions`:
`HTTPException` is re-raised; a database-flavoured exception type maps to
a generic 500; any other exception maps to a 500 whose detail is
`str(e)` itself when non-empty (the "more informative error message"
branch), else the generic message. -/
def reset_password_security_questions_handler (inner : Except RouteErr Unit) :
    Except HErr String :=
  match inner with
  | .ok _ => .ok "Matagumpay na na-reset ang password!"
  | .error (.http e) => .error e
  | .error (.exn e) =>
    if containsSub e.typeName "IntegrityError" ∨ containsSub e.typeName "OperationalError" then
      .error ⟨500, msg_db_problem⟩
    else
      .error ⟨500, if e.msg = "" then msg_reset_generic else e.msg⟩

def msg_scan_problem_start : String :=
  "May problema sa pag-process ng scan: "

/-- The terminal `except Exception` clause of `scan_image`
(`app/scans/routes.py`): clean the upload up, log, and answer 500 with
`f"May problema sa pag-process ng scan: {str(e)}"`. -/
def scan_image_handle_error (e : PyExn) : HErr :=
  ⟨500, msg_scan_problem_start ++ e.msg⟩

/-! ## `app/auth/routes.py` — the plain forgot/reset pathway

`app/auth/routes.py` imports only `hash_password`, `verify_password`,
`create_access_token` and `hash_security_answer` from
`app.core.security`; its bodies nevertheless call
`create_password_reset_token` (line 82) and
`verify_password_reset_token` (line 98), names unresolved in that
module, so reaching those statements raises `NameError`. -/

/-- `forgot_password` (`POST /auth/forgot-password`): for an unknown
email it answers 200 with the enumeration-resistant message and an
empty token, without mutating anything; for an existing user its
issuance branch immediately calls the unimported
`create_password_reset_token`, raising `NameError` before the row is
touched, so the written persist-and-return-token logic
(routes.py:82-92) is unreachable. -/
def forgot_password (email : String) (db : Db) :
    Except RouteErr ((String × TokenStr) × Db) :=
  match findUser email db with
  | none =>
    .ok (("If an account with that email exists, a password reset token has been generated.",
          .invalid ""), db)
  | some _ =>
    .error (.exn ⟨"NameError",
      "name 'create_password_reset_token' is not defined"⟩)

/-- `reset_password` (`POST /auth/reset-password`): its first statement
calls the unimported `verify_password_reset_token`, so every call
raises `NameError` before any check or mutation; the written decode /
literal-match / expiry / commit logic below it (routes.py:98-147) is
unreachable. -/
def reset_password (token : TokenStr) (new_password : String) (db : Db)
    (now : Int) : Except RouteErr (String × Db) :=
  .error (.exn ⟨"NameError",
    "name 'verify_password_reset_token' is not defined"⟩)

/-! ## `app/ml/image_validation.py` -/

/-- What `cv2.imread` yields for a decodable bitmap, abstracted by the
quantities the admission gate computes from it. -/
structure CvImg where
  rows : Nat
  cols : Nat
  laplacianVar : ℚ   -- variance of the Laplacian of the grayscale image
  greenCount : Nat   -- pixels inside the HSV green band [40,40,40]..[80,255,255]
  edgeCount : Nat    -- pixels on Canny(50, 150) edges
deriving DecidableEq

/-- An image file on disk, abstracted by what the gate's two readers see:
whether `PIL.Image.open(..).verify()` succeeds, and what `cv2.imread`
yields (`none` when it cannot decode the file). -/
structure ImgFile where
  pilVerifyOk : Bool
  cvDecode : Option CvImg
deriving DecidableEq

/-- `calculate_blur_score`: Laplacian variance of the grayscale image;
`0.0` when `cv2.imread` fails. -/
def calculate_blur_score (img : ImgFile) : ℚ :=
  match img.cvDecode with
  | none => 0
  | some c => c.laplacianVar

/-- `is_image_blurry`: `(blur_score < threshold, blur_score)`. -/
def is_image_blurry (img : ImgFile) (threshold : ℚ) : Bool × ℚ :=
  let blur_score := calculate_blur_score img
  (decide (blur_score < threshold), blur_score)

/-- Return value of `detect_leaf_features`. -/
structure LeafFeatures where
  green_ratio : ℚ
  edge_density : ℚ
  is_leaf : Bool
deriving DecidableEq

/-- `detect_leaf_features`: green fraction and edge fraction over the
total pixel count `rows * cols`; a leaf iff green-fraction > 0.15 and
edge-fraction > 0.05.  Undecodable input yields the all-zero record. -/
def detect_leaf_features (img : ImgFile) : LeafFeatures :=
  match img.cvDecode with
  | none => ⟨0, 0, false⟩
  | some c =>
    let total : ℚ := (c.rows : ℚ) * (c.cols : ℚ)
    let green_ratio : ℚ := (c.greenCount : ℚ) / total
    let edge_density : ℚ := (c.edgeCount : ℚ) / total
    let is_leaf := decide (green_ratio > 15/100) && decide (edge_density > 5/100)
    ⟨green_ratio, edge_density, is_leaf⟩

/-- Round half-to-even to an integer (Python's rounding of floats). -/
def roundHalfEven (q : ℚ) : ℤ :=
  let f := ⌊q⌋
  let r := q - f
  if r < 1/2 then f
  else if 1/2 < r then f + 1
  else if f % 2 = 0 then f else f + 1

/-- Python `f"{x:.1f}"`. -/
def fmt1 (q : ℚ) : String :=
  let n := roundHalfEven (q * 10)
  let a := n.natAbs
  (if n < 0 then "-" else "") ++ toString (a / 10) ++ "." ++ toString (a % 10)

/-- Python `round(x, 2)`. -/
def round2 (q : ℚ) : ℚ :=
  (roundHalfEven (q * 100) : ℚ) / 100

def msg_cannot_open : String :=
  "Hindi ma-open ang image. Pakisiguro na valid ang image file."

def msg_too_blurry (blur_score : ℚ) : String :=
  "Ang image ay masyadong malabo (blur score: " ++ fmt1 blur_score ++
  "). Pakikumpara sa mas malinaw na litrato ng dahon ng palay kung saan makikita ang markings."

def msg_not_leaf : String :=
  "Ang image ay hindi mukhang dahon ng palay. Ang image ay dapat na dahon lamang ng palay na makikita ang markings. Pakikumpara sa dahon ng palay."

/-- The tail of `validate_image_for_scan` after the blur step: reject
when `detect_leaf_features` says the image is not a leaf, else accept. -/
def leaf_stage (img : ImgFile) : Bool × String :=
  let leaf_features := detect_leaf_features img
  if !leaf_features.is_leaf then (false, msg_not_leaf)
  else (true, "")

/-- `validate_image_for_scan`: decode check (PIL verify), then the blur
step (threshold 50; hard reject below 20, logged warning only in
[20, 50)), then the leaf-likelihood step. -/
def validate_image_for_scan (img : ImgFile) : Bool × String :=
  if !img.pilVerifyOk then (false, msg_cannot_open)
  else
    match is_image_blurry img 50 with
    | (is_blurry, blur_score) =>
      if is_blurry then
        if blur_score < 20 then (false, msg_too_blurry blur_score)
        else leaf_stage img   -- moderate blur: logged, still processed
      else leaf_stage img

/-! ## `app/ml/model_service.py` -/

def DISEASE_CLASSES : List String :=
  ["bacterial_leaf_blight", "healthy", "leaf_blast", "tungro_virus"]

def DISEASE_NAMES : List (String × String) :=
  [("bacterial_leaf_blight", "Bacterial Leaf Blight"),
   ("healthy", "Healthy"),
   ("leaf_blast", "Leaf Blast"),
   ("tungro_virus", "Tungro Virus")]

/-- One entry of `DISEASE_RECOMMENDATIONS`. -/
structure RecInfo where
  en : String
  fil : String
  severity : String
  action_required : Bool
deriving DecidableEq

def rec_healthy : RecInfo :=
  { en := "Your rice plant appears to be healthy. Continue with your regular watering and fertilization schedule. Monitor for any changes and maintain good agricultural practices.",
    fil := "Ang inyong palay ay mukhang maayos at mabuti. Magpatuloy sa regular na pagdidilig at pagpapabunga. Bantayan ang anumang pagbabago at panatilihin ang mabuting pagsasaka.",
    severity := "none",
    action_required := false }

def rec_bacterial_leaf_blight : RecInfo :=
  { en := "Bacterial Leaf Blight detected. This is a common rice disease that can be managed. Remove affected leaves and apply copper-based bactericide. Ensure good air circulation by proper spacing. Use resistant varieties in future plantings. With proper care, your crop can recover.",
    fil := "Nakita ang Bacterial Leaf Blight. Ito ay karaniwang sakit ng palay na maaaring ma-manage. Tanggalin ang mga apektadong dahon at gumamit ng copper-based na bactericide. Siguraduhing may sapat na hangin sa pamamagitan ng tamang spacing. Gumamit ng resistant varieties sa susunod na tanim. Sa tamang pangangalaga, maaaring gumaling ang inyong pananim.",
    severity := "moderate",
    action_required := true }

def rec_leaf_blast : RecInfo :=
  { en := "Leaf Blast detected. This is a fungal disease that responds well to treatment. Apply fungicide containing tricyclazole or azoxystrobin as directed. Remove affected leaves. Maintain proper spacing for air circulation. Avoid excessive nitrogen. Early treatment improves recovery.",
    fil := "Nakita ang Leaf Blast. Ito ay fungal disease na maaaring gamutin. Gumamit ng fungicide na may tricyclazole o azoxystrobin ayon sa direksyon. Tanggalin ang mga apektadong dahon. Panatilihin ang tamang spacing para sa sapat na hangin. Iwasan ang labis na nitrogen. Maagang paggamot ay nakakatulong sa paggaling.",
    severity := "moderate",
    action_required := true }

def rec_tungro_virus : RecInfo :=
  { en := "Tungro Virus detected. This viral disease is spread by leafhoppers. Remove affected plants to prevent spread to healthy ones. Control leafhoppers with appropriate insecticides. Consider using resistant rice varieties in your next planting. Early detection and management can help minimize impact.",
    fil := "Nakita ang Tungro Virus. Ang viral disease na ito ay kumakalat sa pamamagitan ng leafhoppers. Tanggalin ang mga apektadong halaman upang maiwasan ang pagkalat sa malulusog na halaman. Kontrolin ang leafhoppers gamit ang angkop na insecticides. Isaalang-alang ang paggamit ng resistant rice varieties sa susunod na tanim. Maagang pag-detect at pag-manage ay makakatulong na mabawasan ang epekto.",
    severity := "moderate",
    action_required := true }

def DISEASE_RECOMMENDATIONS : List (String × RecInfo) :=
  [("healthy", rec_healthy),
   ("bacterial_leaf_blight", rec_bacterial_leaf_blight),
   ("leaf_blast", rec_leaf_blast),
   ("tungro_virus", rec_tungro_virus)]

/-- The default `rec_info` used when the class is not in the table. -/
def rec_default : RecInfo :=
  { en := "Please consult with an agricultural expert for proper diagnosis and treatment.",
    fil := "Pakipagkonsulta sa agricultural expert para sa tamang diagnosis at treatment.",
    severity := "unknown",
    action_required := true }

/-- `dict.get` on an association list. -/
def lookupStr {α : Type} (l : List (String × α)) (k : String) : Option α :=
  (l.find? (fun p => p.1 == k)).map (fun p => p.2)

/-- Python `str.title()` on space-separated lowercase words. -/
def pyTitle (s : String) : String :=
  String.intercalate " " ((s.splitOn " ").map (fun w => w.toLower.capitalize))

/-- `DISEASE_NAMES.get(c, c.replace('_', ' ').title())`. -/
def display_name (disease_class : String) : String :=
  (lookupStr DISEASE_NAMES disease_class).getD
    (pyTitle (disease_class.replace "_" " "))

/-- The preprocessed image array (`preprocess_image` output), abstract. -/
structure PreImg where
  data : List ℚ
deriving DecidableEq

/-- The file at an image path, abstracted by the outcome of
`ModelService.preprocess_image` on it (`Image.open`, RGB conversion,
resize to 224x224, EfficientNet pixel normalization); `.error` carries
the message of the exception that `preprocess_image` re-raises. -/
structure ImagePath where
  load : Except String PreImg

/-- A loaded classifier: one forward pass from the preprocessed array to
the class-probability row `predictions[0]` (`.error` when the forward
pass raises). -/
structure LoadedModel where
  infer : PreImg → Except String (List ℚ)

/-- The fields of `ModelService` that `predict` reads. -/
structure ModelService where
  model : Option LoadedModel
  model_type : Option String

/-- The dictionary `ModelService.predict` returns. -/
structure PredictResult where
  disease_name : String
  disease_class : String
  confidence : ℚ
  confidence_raw : ℚ
  recommendations : String
  severity : String
  action_required : Bool
  all_predictions : List (String × ℚ)
  is_confident : Bool
deriving DecidableEq

/-- `ModelService._mock_predict`: the fixed canned answer. -/
def mock_predict : PredictResult :=
  { disease_name := "Healthy",
    disease_class := "healthy",
    confidence := 987/10,
    confidence_raw := 987/1000,
    recommendations := rec_healthy.fil,
    severity := "none",
    action_required := false,
    all_predictions := [("Healthy", 987/10)],
    is_confident := true }

def argmaxAux : List ℚ → ℚ → Nat → Nat → Nat
  | [], _, best, _ => best
  | y :: ys, cur, best, i =>
    if cur < y then argmaxAux ys y i (i + 1) else argmaxAux ys cur best (i + 1)

/-- `np.argmax`: first index attaining the maximum; `none` on an empty
array (numpy raises there, which `predict` catches). -/
def argmaxIdx : List ℚ → Option Nat
  | [] => none
  | x :: xs => some (argmaxAux xs x 0 1)

def insertRankBy (le : Nat → Nat → Bool) (x : Nat) : List Nat → List Nat
  | [] => [x]
  | y :: ys => if le x y then x :: y :: ys else y :: insertRankBy le x ys

def sortRankBy (le : Nat → Nat → Bool) : List Nat → List Nat
  | [] => []
  | x :: xs => insertRankBy le x (sortRankBy le xs)

/-- `np.argsort(l)[::-1]`: indices in descending order of value.  The
order among equal values is unspecified in numpy's default sort; this
model fixes larger-index-first, one valid refinement. -/
def argsortDesc (l : List ℚ) : List Nat :=
  sortRankBy
    (fun i j => decide (l.getD j 0 < l.getD i 0) ||
                (l.getD i 0 == l.getD j 0 && decide (j ≤ i)))
    (List.range l.length)

def msg_conf_high : String :=
  "Mataas ang kumpiyansa sa diagnosis na ito."
def msg_conf_moderate : String :=
  "Katamtamang kumpiyansa sa diagnosis. Maaring kumonsulta sa agricultural expert para sa karagdagang tulong kung kinakailangan."
def msg_conf_low : String :=
  "Mababa ang kumpiyansa. Maaring kumonsulta sa agricultural expert para sa mas tiyak na diagnosis."

/-- `ModelService._build_ai_enhanced_recommendations`.  (Python also
takes `disease_name`, which the body never reads.)  Returns `.error` for
the `IndexError` raised when the runner-up index falls outside
`DISEASE_CLASSES` inside the note branch. -/
def _build_ai_enhanced_recommendations (disease_class : String)
    (confidence : ℚ) (rec_info : RecInfo) (preds : List ℚ) :
    Except String String :=
  let base_rec := rec_info.fil   -- rec_info.get("fil", rec_info.get("en", ""))
  let confidence_msg :=
    if confidence ≥ 80 then msg_conf_high
    else if confidence ≥ 60 then msg_conf_moderate
    else msg_conf_low
  let withNote : Except String String :=
    match (argsortDesc preds).get? 1 with
    | none => .ok base_rec
    | some second_pred_idx =>
      let second_confidence := preds.getD second_pred_idx 0 * 100
      if second_confidence > 25 ∧ confidence - second_confidence < 25 then
        match DISEASE_CLASSES.get? second_pred_idx with
        | none => .error "list index out of range"
        | some c =>
          let second_disease := display_name c
          .ok (base_rec ++ "\n\nNote: Posible ring " ++ second_disease ++ " (" ++
               fmt1 second_confidence ++
               "% confidence). Maaring kumonsulta sa agricultural expert para sa mas tiyak na diagnosis.")
      else .ok base_rec
  match withNote with
  | .error e => .error e
  | .ok noted =>
    let severity := rec_info.severity
    let flagged :=
      if severity = "critical" ∨ severity = "high" ∨ severity = "moderate" then
        "ðŸ’¡ " ++ noted
      else noted
    let full_recommendation := confidence_msg ++ "\n\n" ++ flagged
    .ok (if disease_class ≠ "healthy" ∧ severity ≠ "none" then
           full_recommendation ++
           "\n\nðŸ’š Paalala: Ang mga sakit na ito ay maaaring ma-manage at gamutin. Sa tamang pangangalaga, maaaring gumaling ang inyong pananim."
         else full_recommendation)

/-- `ModelService.predict`: total — every internal exception is caught
and mapped to `_mock_predict`, and a missing model short-circuits to
`_mock_predict` before anything runs.  (The two logging-only
computations of the source — `all_predictions_scores` and the
closeness warning — have no effect on the returned value.) -/
def ModelService.predict (svc : ModelService) (image_path : ImagePath)
    (confidence_threshold : ℚ) : PredictResult :=
  match svc.model with
  | none => mock_predict
  | some m =>
    match image_path.load with
    | .error _ => mock_predict
    | .ok processed_image =>
      let inferRes : Option (Except String (List ℚ)) :=
        if svc.model_type = some "keras" ∨ svc.model_type = some "pytorch" ∨
           svc.model_type = some "onnx" then
          some (m.infer processed_image)
        else none
      match inferRes with
      | none => mock_predict             -- unknown `model_type` branch
      | some (.error _) => mock_predict  -- the forward pass raised
      | some (.ok preds) =>
        match argmaxIdx preds with
        | none => mock_predict           -- np.argmax raised on an empty row
        | some predicted_class_idx =>
          let confidence := preds.getD predicted_class_idx 0
          let confidence_percent := confidence * 100
          let (disease_class, disease_name) :=
            if predicted_class_idx < DISEASE_CLASSES.length then
              let c := DISEASE_CLASSES.getD predicted_class_idx ""
              (c, display_name c)
            else ("unknown", "Unknown")
          let rec_info :=
            (lookupStr DISEASE_RECOMMENDATIONS disease_class.toLower).getD rec_default
          match _build_ai_enhanced_recommendations disease_class
                  confidence_percent rec_info preds with
          | .error _ => mock_predict     -- IndexError inside the builder
          | .ok recommendations =>
            { disease_name := disease_name,
              disease_class := disease_class,
              confidence := round2 confidence_percent,
              confidence_raw := confidence,
              recommendations := recommendations,
              severity := rec_info.severity,
              action_required := rec_info.action_required,
              all_predictions :=
                (List.range (min DISEASE_CLASSES.length preds.length)).map
                  (fun i => (display_name (DISEASE_CLASSES.getD i ""),
                             preds.getD i 0 * 100)),
              is_confident := decide (confidence ≥ confidence_threshold) }


/-- The question/answer pair the `if question_index == 0/1/2` chain of
`verify_user_security_answer` selects (`none` for out-of-range index). -/
def security_pair (u : UserRow) (idx : Int) :
    Option (Option String × Option String) :=
  if idx = 0 then some (u.security_question_1, u.security_answer_1)
  else if idx = 1 then some (u.security_question_2, u.security_answer_2)
  else if idx = 2 then some (u.security_question_3, u.security_answer_3)
  else none

/-- The claimed row invariant: `reset_token` and `reset_token_expires`
are both present or both absent. -/
def resetFieldsConsistent (u : UserRow) : Prop :=
  u.reset_token.isSome = u.reset_token_expires.isSome

instance (u : UserRow) : Decidable (resetFieldsConsistent u) := by
  unfold resetFieldsConsistent; infer_instance


/-! ## Concrete fixtures for witnesses -/

/-- A reset token signed for `a@b.c`, expiring at instant 1000. -/
def tok0 : TokenStr := .signed ⟨some "a@b.c", 1000, some "password_reset"⟩

/-- A row for `a@b.c` holding `tok0` with persisted expiry 900 and one
configured security question (answer "Blue"). -/
def user0 : UserRow :=
  { email := "a@b.c",
    password_hash := hash_password "oldpass123",
    reset_token := some tok0,
    reset_token_expires := some ⟨900, true⟩,
    security_question_1 := some "What is your favorite color?",
    security_answer_1 := some (hash_security_answer "Blue"),
    security_question_2 := none, security_answer_2 := none,
    security_question_3 := none, security_answer_3 := none }

def db0 : Db := [user0]

/-- A second validly signed reset token for `a@b.c` (longer expiry),
distinct from the persisted `tok0`. -/
def tok1 : TokenStr := .signed ⟨some "a@b.c", 2000, some "password_reset"⟩

/-- `db0` after a successful redemption with password `newpassword1`. -/
def db0_cleared : Db :=
  updateUser "a@b.c"
    (fun v => { v with password_hash := hash_password "newpassword1",
                       reset_token := none, reset_token_expires := none }) db0

/-!
# Theorems

Shared helper lemmas first, then one theorem (plus counterexample /
witness where needed) per claim.
-/

/-! ## Helpers for the admission gate -/

lemma validate_reject_blurry (img : ImgFile) (hpil : img.pilVerifyOk = true)
    (hlt : calculate_blur_score img < 20) :
    validate_image_for_scan img = (false, msg_too_blurry (calculate_blur_score img)) := by
  have h50 : calculate_blur_score img < 50 := lt_trans hlt (by norm_num)
  simp [validate_image_for_scan, is_image_blurry, hpil, hlt, h50]

lemma validate_pass_sharp (img : ImgFile) (hpil : img.pilVerifyOk = true)
    (hge : 20 ≤ calculate_blur_score img) :
    validate_image_for_scan img = leaf_stage img := by
  have hnlt : ¬ calculate_blur_score img < 20 := not_lt.mpr hge
  by_cases h50 : calculate_blur_score img < 50
  · simp [validate_image_for_scan, is_image_blurry, hpil, h50, hnlt]
  · simp [validate_image_for_scan, is_image_blurry, hpil, h50]

/-! ## Claim C6 -/

/-- C6: in the admission gate, for every image that passes the decode
check, a Laplacian-variance sharpness score strictly below 20 hard-rejects
with the "too blurry" message, and a score of 20 or more leaves the
verdict entirely to the leaf-likelihood stage (`leaf_stage`, which does
not read the score) — in particular scores in [20, 50) and scores ≥ 50
are both accepted by the sharpness stage, the threshold 50 only
controlling a logged warning, so the sharpness accept/reject decision
depends only on the score relative to 20 and 50. -/
theorem C6_sharpness_thresholds (img : ImgFile) (hpil : img.pilVerifyOk = true) :
    (calculate_blur_score img < 20 →
      validate_image_for_scan img = (false, msg_too_blurry (calculate_blur_score img))) ∧
    (20 ≤ calculate_blur_score img →
      validate_image_for_scan img = leaf_stage img) :=
  ⟨validate_reject_blurry img hpil, validate_pass_sharp img hpil⟩

/-- Witness for C6 at concrete inputs: an image of sharpness 10 is
rejected as too blurry; an image of sharpness 25 goes to the leaf stage. -/
theorem C6_sharpness_thresholds_witness :
    validate_image_for_scan ⟨true, some ⟨10, 10, 10, 20, 6⟩⟩ =
      (false, msg_too_blurry (calculate_blur_score ⟨true, some ⟨10, 10, 10, 20, 6⟩⟩)) ∧
    validate_image_for_scan ⟨true, some ⟨10, 10, 25, 20, 6⟩⟩ =
      leaf_stage ⟨true, some ⟨10, 10, 25, 20, 6⟩⟩ :=
  ⟨(C6_sharpness_thresholds ⟨true, some ⟨10, 10, 10, 20, 6⟩⟩ rfl).1 (by decide),
   (C6_sharpness_thresholds ⟨true, some ⟨10, 10, 25, 20, 6⟩⟩ rfl).2 (by decide)⟩

/-! ## Claim C7 -/

/-- C7: the leaf-likelihood check accepts an image iff the fraction of
pixels inside the fixed green hue band is strictly greater than 0.15 AND
the fraction of pixels on detected edges is strictly greater than 0.05,
both fractions over the total pixel count `rows * cols`; an image that
reaches this stage (decodable, sharpness ≥ 20) is accepted by the gate
iff `is_leaf` holds, and otherwise rejected with the domain-specific
message. -/
theorem C7_leaf_likelihood (img : ImgFile) (c : CvImg)
    (hpil : img.pilVerifyOk = true)
    (hcv : img.cvDecode = some c)
    (hblur : 20 ≤ calculate_blur_score img) :
    ((detect_leaf_features img).is_leaf =
      (decide ((c.greenCount : ℚ) / ((c.rows : ℚ) * (c.cols : ℚ)) > 15/100) &&
       decide ((c.edgeCount : ℚ) / ((c.rows : ℚ) * (c.cols : ℚ)) > 5/100))) ∧
    ((detect_leaf_features img).is_leaf = true →
      validate_image_for_scan img = (true, "")) ∧
    ((detect_leaf_features img).is_leaf = false →
      validate_image_for_scan img = (false, msg_not_leaf)) := by
  refine ⟨by simp [detect_leaf_features, hcv], ?_, ?_⟩
  · intro hleaf
    rw [validate_pass_sharp img hpil hblur]
    simp [leaf_stage, hleaf]
  · intro hleaf
    rw [validate_pass_sharp img hpil hblur]
    simp [leaf_stage, hleaf]

/-- Witness for C7 at concrete inputs: a 10x10 image with 20 green
pixels (fraction 0.2) and 6 edge pixels (fraction 0.06) is a leaf and is
accepted; one with 0 green pixels is rejected with the leaf message. -/
theorem C7_leaf_likelihood_witness :
    validate_image_for_scan ⟨true, some ⟨10, 10, 25, 20, 6⟩⟩ = (true, "") ∧
    validate_image_for_scan ⟨true, some ⟨10, 10, 25, 0, 6⟩⟩ = (false, msg_not_leaf) :=
  ⟨(C7_leaf_likelihood ⟨true, some ⟨10, 10, 25, 20, 6⟩⟩ ⟨10, 10, 25, 20, 6⟩
      rfl rfl (by decide)).2.1 (by norm_num [detect_leaf_features]),
   (C7_leaf_likelihood ⟨true, some ⟨10, 10, 25, 0, 6⟩⟩ ⟨10, 10, 25, 0, 6⟩
      rfl rfl (by decide)).2.2 (by norm_num [detect_leaf_features])⟩

/-! ## Claim C5 -/

/-- C5: with no classifier model loaded (`model is None`), every call of
`ModelService.predict`, for every image input and every confidence
threshold, returns the fixed mock result — label "Healthy", confidence
98.7, severity "none", `action_required = False` — and (being modelled,
like the source's fully caught body, as a total function) does not
raise. -/
theorem C5_predict_without_model_is_mock (svc : ModelService)
    (image_path : ImagePath) (confidence_threshold : ℚ)
    (h : svc.model = none) :
    svc.predict image_path confidence_threshold = mock_predict ∧
    mock_predict.disease_name = "Healthy" ∧
    mock_predict.confidence = 987/10 ∧
    mock_predict.severity = "none" ∧
    mock_predict.action_required = false := by
  refine ⟨?_, rfl, rfl, rfl, rfl⟩
  simp only [ModelService.predict, h]

/-- Witness for C5 at a concrete input. -/
theorem C5_predict_without_model_is_mock_witness :
    ModelService.predict ⟨none, none⟩ ⟨Except.error "cannot identify image file"⟩ (65/100) =
      mock_predict ∧
    mock_predict.disease_name = "Healthy" ∧
    mock_predict.confidence = 987/10 ∧
    mock_predict.severity = "none" ∧
    mock_predict.action_required = false :=
  C5_predict_without_model_is_mock ⟨none, none⟩
    ⟨Except.error "cannot identify image file"⟩ (65/100) rfl

/-! ## Claim C10 -/

/-- C10 (implicit): `ModelService.predict` is total even with a loaded
model — if preprocessing raises, or preprocessing succeeds and the
forward pass raises, `predict` catches the exception and returns the
same fixed mock result as the no-model case, so a runtime inference
failure is indistinguishable from the no-model case in the returned
value. -/
theorem C10_predict_catches_inference_errors (svc : ModelService)
    (m : LoadedModel) (image_path : ImagePath) (confidence_threshold : ℚ)
    (hm : svc.model = some m)
    (hfail : (∃ e, image_path.load = .error e) ∨
             (∃ p e, image_path.load = .ok p ∧ m.infer p = .error e)) :
    svc.predict image_path confidence_threshold = mock_predict := by
  rcases hfail with ⟨e, he⟩ | ⟨p, e, hp, hi⟩
  · simp only [ModelService.predict, hm, he]
  · by_cases hc : (svc.model_type = some "keras" ∨ svc.model_type = some "pytorch" ∨
                   svc.model_type = some "onnx")
    · simp only [ModelService.predict, hm, hp, hi, if_pos hc]
    · simp only [ModelService.predict, hm, hp, hi, if_neg hc]

/-- Witness for C10 at a concrete input: a loaded keras model whose
forward pass raises. -/
theorem C10_predict_catches_inference_errors_witness :
    ModelService.predict ⟨some ⟨fun _ => Except.error "boom"⟩, some "keras"⟩
      ⟨Except.ok ⟨[]⟩⟩ (65/100) = mock_predict :=
  C10_predict_catches_inference_errors
    ⟨some ⟨fun _ => Except.error "boom"⟩, some "keras"⟩
    ⟨fun _ => Except.error "boom"⟩ ⟨Except.ok ⟨[]⟩⟩ (65/100) rfl
    (Or.inr ⟨⟨[]⟩, "boom", rfl, rfl⟩)

/-! ## Claim C9 -/

/-- C9 counterexample: the claim says an unexpected (non-HTTPException)
failure in the reset and scan endpoints never surfaces the raw exception
text to the client.  At the concrete exception `ValueError("boom")`, the
`reset-password-security-questions` handler answers 500 with detail
exactly `"boom"` (the raw `str(e)`), and the `scan` handler answers 500
with the raw text appended to its prefix — not the generic localized
message. -/
theorem C9_counterexample :
    reset_password_security_questions_handler
      (.error (.exn ⟨"ValueError", "boom"⟩)) = .error ⟨500, "boom"⟩ ∧
    scan_image_handle_error ⟨"ValueError", "boom"⟩ =
      ⟨500, "May problema sa pag-process ng scan: boom"⟩ ∧
    "boom" ≠ msg_reset_generic := by
  refine ⟨rfl, rfl, by decide⟩

/-- C9 amended: for unexpected (non-HTTPException) failures, the full
detail is logged server-side, but the client response is generic only in
part: the scan endpoint always appends the raw exception text to a
localized prefix, and the reset endpoint answers with the generic
database message when the exception type name contains "IntegrityError"
or "OperationalError", with the generic reset message when `str(e)` is
empty, and otherwise with the raw exception text itself. -/
theorem C9_amended_raw_exception_text (e : PyExn) :
    (scan_image_handle_error e = ⟨500, msg_scan_problem_start ++ e.msg⟩) ∧
    (containsSub e.typeName "IntegrityError" = true ∨
     containsSub e.typeName "OperationalError" = true →
      reset_password_security_questions_handler (.error (.exn e)) =
        .error ⟨500, msg_db_problem⟩) ∧
    (containsSub e.typeName "IntegrityError" = false →
     containsSub e.typeName "OperationalError" = false →
     e.msg ≠ "" →
      reset_password_security_questions_handler (.error (.exn e)) =
        .error ⟨500, e.msg⟩) ∧
    (containsSub e.typeName "IntegrityError" = false →
     containsSub e.typeName "OperationalError" = false →
     e.msg = "" →
      reset_password_security_questions_handler (.error (.exn e)) =
        .error ⟨500, msg_reset_generic⟩) := by
  refine ⟨rfl, ?_, ?_, ?_⟩
  · intro h
    simp only [reset_password_security_questions_handler, if_pos h]
  · intro h1 h2 hmsg
    have hc : ¬ (containsSub e.typeName "IntegrityError" = true ∨
                 containsSub e.typeName "OperationalError" = true) := by
      simp [h1, h2]
    simp only [reset_password_security_questions_handler, if_neg hc, if_neg hmsg]
  · intro h1 h2 hmsg
    have hc : ¬ (containsSub e.typeName "IntegrityError" = true ∨
                 containsSub e.typeName "OperationalError" = true) := by
      simp [h1, h2]
    simp only [reset_password_security_questions_handler, if_neg hc, if_pos hmsg]

/-- Witness for C9's amended theorem at `ValueError("boom")`. -/
theorem C9_amended_raw_exception_text_witness :
    scan_image_handle_error ⟨"ValueError", "boom"⟩ =
      ⟨500, msg_scan_problem_start ++ "boom"⟩ ∧
    reset_password_security_questions_handler
      (.error (.exn ⟨"ValueError", "boom"⟩)) = .error ⟨500, "boom"⟩ :=
  ⟨(C9_amended_raw_exception_text ⟨"ValueError", "boom"⟩).1,
   (C9_amended_raw_exception_text ⟨"ValueError", "boom"⟩).2.2.1
     (by decide) (by decide) (by decide)⟩

/-! ## Helpers for the reset flow -/

lemma findUser_updateUser (email : String) (f : UserRow → UserRow) (db : Db)
    (hf : ∀ u, (f u).email = u.email) :
    findUser email (updateUser email f db) = (findUser email db).map f := by
  induction db with
  | nil => rfl
  | cons u tl ih =>
    by_cases h : u.email == email
    · have hfu : ((f u).email == email) = true := by rw [hf u]; exact h
      simp [findUser, updateUser, List.find?, hfu, h]
    · have hb : (u.email == email) = false := by simpa using h
      simp only [findUser, updateUser] at ih ⊢
      simp only [List.map_cons]
      rw [if_neg h]
      simp only [List.find?, hb]
      exact ih

lemma mem_updateUser {email : String} {f : UserRow → UserRow} {db : Db}
    {u' : UserRow} (h : u' ∈ updateUser email f db) :
    (∃ u ∈ db, u' = f u) ∨ u' ∈ db := by
  simp only [updateUser, List.mem_map] at h
  obtain ⟨u, hu, heq⟩ := h
  by_cases hcond : u.email == email
  · rw [if_pos hcond] at heq
    exact Or.inl ⟨u, hu, heq.symm⟩
  · rw [if_neg hcond] at heq
    exact Or.inr (heq ▸ hu)

/-- Elimination form of a successful `reset_user_password`: all checks
passed and the committed database is the row with the password
overwritten and both token fields cleared. -/
lemma reset_user_password_ok_elim {email : String} {tok : TokenStr}
    {pwd : String} {db : Db} {now : Int} {ok : Bool} {db' : Db}
    (h : reset_user_password email tok pwd db now ok = .ok db') :
    ∃ u, findUser email db = some u ∧
      tokenFalsy u.reset_token = false ∧
      u.reset_token = some tok ∧
      (∃ d, u.reset_token_expires = some d ∧ ¬ d.instant < now) ∧
      verify_password_reset_token tok now = some email ∧
      db' = updateUser email
              (fun v => { v with password_hash := hash_password pwd,
                                 reset_token := none,
                                 reset_token_expires := none }) db := by
  unfold reset_user_password at h
  by_cases hA : (pwd = "" ∨ pyStrip pwd = "")
  · rw [if_pos hA] at h; exact absurd h (by simp)
  rw [if_neg hA] at h
  by_cases hB : (pyStrip pwd).length < 8
  · rw [if_pos hB] at h; exact absurd h (by simp)
  rw [if_neg hB] at h
  cases hfind : findUser email db with
  | none => simp only [hfind] at h; exact absurd h (by simp)
  | some u =>
    simp only [hfind] at h
    by_cases hC : (tokenFalsy u.reset_token = true ∨ u.reset_token ≠ some tok)
    · rw [if_pos hC] at h; exact absurd h (by simp)
    rw [if_neg hC] at h
    push_neg at hC
    obtain ⟨hC1, hC2⟩ := hC
    cases hexp : u.reset_token_expires with
    | none => simp only [hexp] at h; exact absurd h (by simp)
    | some d =>
      simp only [hexp] at h
      by_cases hD : d.instant < now
      · rw [if_pos hD] at h; exact absurd h (by simp)
      rw [if_neg hD] at h
      by_cases hE : (strFalsy (verify_password_reset_token tok now) = true ∨
                     verify_password_reset_token tok now ≠ some email)
      · rw [if_pos hE] at h; exact absurd h (by simp)
      rw [if_neg hE] at h
      push_neg at hE
      cases ok with
      | false => exact absurd h (by simp)
      | true =>
        rw [if_pos rfl] at h
        injection h with h
        exact ⟨u, rfl, by simpa using hC1, hC2, ⟨d, hexp, hD⟩, hE.2, h.symm⟩

/-- Whenever the user row exists and any of the persisted-token /
expiry / JWT checks would fail, `reset_user_password` answers some
BadRequest (a 400): every rejecting branch other than the unknown-email
404 and the commit-failure 500 carries status 400, and the commit is
unreachable when one of these checks fails. -/
lemma reset_user_password_400 (email : String) (tok : TokenStr)
    (pwd : String) (db : Db) (now : Int) (ok : Bool) (u : UserRow)
    (hu : findUser email db = some u)
    (hbad : (tokenFalsy u.reset_token = true ∨ u.reset_token ≠ some tok) ∨
            u.reset_token_expires = none ∨
            (∃ d, u.reset_token_expires = some d ∧ d.instant < now) ∨
            strFalsy (verify_password_reset_token tok now) = true ∨
            verify_password_reset_token tok now ≠ some email) :
    ∃ e, reset_user_password email tok pwd db now ok = .error e ∧
         e.status_code = 400 := by
  by_cases hA : (pwd = "" ∨ pyStrip pwd = "")
  · exact ⟨⟨400, msg_password_empty⟩,
      by simp [reset_user_password, if_pos hA], rfl⟩
  by_cases hB : (pyStrip pwd).length < 8
  · exact ⟨⟨400, msg_password_short⟩,
      by simp [reset_user_password, hA, if_pos hB], rfl⟩
  by_cases hC : (tokenFalsy u.reset_token = true ∨ u.reset_token ≠ some tok)
  · exact ⟨⟨400, msg_token_not_matching⟩,
      by simp [reset_user_password, hA, hB, hu, if_pos hC], rfl⟩
  cases hexp : u.reset_token_expires with
  | none =>
    exact ⟨⟨400, msg_token_expired⟩,
      by simp [reset_user_password, hA, hB, hu, hC, hexp], rfl⟩
  | some d =>
    by_cases hD : d.instant < now
    · exact ⟨⟨400, msg_token_expired⟩,
        by simp [reset_user_password, hA, hB, hu, hC, hexp, if_pos hD], rfl⟩
    by_cases hE : (strFalsy (verify_password_reset_token tok now) = true ∨
                   verify_password_reset_token tok now ≠ some email)
    · exact ⟨⟨400, msg_token_jwt_invalid⟩,
        by simp [reset_user_password, hA, hB, hu, hC, hexp, hD, if_pos hE], rfl⟩
    exfalso
    push_neg at hC hE
    rcases hbad with hb | hb | hb | hb | hb
    · rcases hb with hb | hb
      · exact absurd hb (by simp [hC.1])
      · exact hb hC.2
    · rw [hexp] at hb; exact Option.noConfusion hb
    · obtain ⟨d2, hd2, hlt⟩ := hb
      rw [hexp] at hd2
      cases hd2
      exact hD hlt
    · exact absurd hb (by simp [hE.1])
    · exact hb hE.2

/-! ## Claim C1 -/

/-- C1: a security-question reset token is single-use: when
`reset_user_password` succeeds, the committed row has both `reset_token`
and `reset_token_expires` cleared, so a second call with the same email
and the same token fails with a BadRequest (status 400); and a call made
after the persisted expiry instant also fails with a BadRequest. -/
theorem C1_reset_token_single_use (email : String) (tok : TokenStr)
    (pwd : String) (db : Db) (now : Int) (ok : Bool) :
    (∀ db', reset_user_password email tok pwd db now ok = .ok db' →
      (∃ u', findUser email db' = some u' ∧ u'.reset_token = none ∧
             u'.reset_token_expires = none) ∧
      (∀ pwd2 now2 ok2, ∃ e,
        reset_user_password email tok pwd2 db' now2 ok2 = .error e ∧
        e.status_code = 400)) ∧
    (∀ u d, findUser email db = some u → u.reset_token_expires = some d →
      d.instant < now →
      ∃ e, reset_user_password email tok pwd db now ok = .error e ∧
           e.status_code = 400) := by
  constructor
  · intro db' h
    obtain ⟨u, hfind, _, _, _, _, hdb'⟩ := reset_user_password_ok_elim h
    have hfind' : findUser email db' = some
        { u with password_hash := hash_password pwd,
                 reset_token := none, reset_token_expires := none } := by
      rw [hdb', findUser_updateUser email
            (fun v => { v with password_hash := hash_password pwd,
                               reset_token := none,
                               reset_token_expires := none }) db (fun _ => rfl),
          hfind]
      rfl
    refine ⟨⟨_, hfind', rfl, rfl⟩, ?_⟩
    intro pwd2 now2 ok2
    exact reset_user_password_400 email tok pwd2 db' now2 ok2 _ hfind'
      (Or.inl (Or.inl rfl))
  · intro u d hfind hexp hlt
    exact reset_user_password_400 email tok pwd db now ok u hfind
      (Or.inr (Or.inr (Or.inl ⟨d, hexp, hlt⟩)))

/-- Witness for C1: a concrete successful redemption (token valid,
expiry 900 ≥ now = 800), after which the row is cleared and any replay
of the token gets a 400; and a redemption at now = 2000 (past the
persisted expiry 900) gets a 400. -/
theorem C1_reset_token_single_use_witness :
    ((∃ u', findUser "a@b.c" db0_cleared = some u' ∧ u'.reset_token = none ∧
            u'.reset_token_expires = none) ∧
     (∀ pwd2 now2 ok2, ∃ e,
        reset_user_password "a@b.c" tok0 pwd2 db0_cleared now2 ok2 = .error e ∧
        e.status_code = 400)) ∧
    (∃ e, reset_user_password "a@b.c" tok0 "newpassword1" db0 2000 true =
            .error e ∧ e.status_code = 400) :=
  ⟨(C1_reset_token_single_use "a@b.c" tok0 "newpassword1" db0 800 true).1
      db0_cleared rfl,
   (C1_reset_token_single_use "a@b.c" tok0 "newpassword1" db0 2000 true).2
      user0 ⟨900, true⟩ rfl rfl (by decide)⟩

/-! ## Claim C2 -/

/-- C2: for every redeem call with an existing user and a valid new
password, `reset_user_password` fails with a BadRequest (400) if the
supplied token does not literally equal the persisted `reset_token`, if
no `reset_token_expires` is persisted, or if the persisted expiry (its
UTC reading) is earlier than now; independently it fails with a
BadRequest if the token's JWT signature / purpose / subject check does
not yield exactly the given email; and the password hash is overwritten
and both token fields cleared only when both checks pass. -/
theorem C2_redeem_checks (email : String) (tok : TokenStr) (pwd : String)
    (db : Db) (now : Int) (ok : Bool) (u : UserRow)
    (hu : findUser email db = some u)
    (hp1 : ¬ (pwd = "" ∨ pyStrip pwd = ""))
    (hp2 : ¬ (pyStrip pwd).length < 8) :
    (u.reset_token ≠ some tok →
      ∃ e, reset_user_password email tok pwd db now ok = .error e ∧
           e.status_code = 400) ∧
    (u.reset_token_expires = none →
      ∃ e, reset_user_password email tok pwd db now ok = .error e ∧
           e.status_code = 400) ∧
    (∀ d, u.reset_token_expires = some d → d.instant < now →
      ∃ e, reset_user_password email tok pwd db now ok = .error e ∧
           e.status_code = 400) ∧
    (verify_password_reset_token tok now ≠ some email →
      ∃ e, reset_user_password email tok pwd db now ok = .error e ∧
           e.status_code = 400) ∧
    (∀ db', reset_user_password email tok pwd db now ok = .ok db' →
      u.reset_token = some tok ∧
      (∃ d, u.reset_token_expires = some d ∧ ¬ d.instant < now) ∧
      verify_password_reset_token tok now = some email ∧
      findUser email db' = some
        { u with password_hash := hash_password pwd,
                 reset_token := none, reset_token_expires := none }) := by
  refine ⟨?_, ?_, ?_, ?_, ?_⟩
  · intro h
    exact reset_user_password_400 email tok pwd db now ok u hu
      (Or.inl (Or.inr h))
  · intro h
    exact reset_user_password_400 email tok pwd db now ok u hu
      (Or.inr (Or.inl h))
  · intro d hd hlt
    exact reset_user_password_400 email tok pwd db now ok u hu
      (Or.inr (Or.inr (Or.inl ⟨d, hd, hlt⟩)))
  · intro h
    exact reset_user_password_400 email tok pwd db now ok u hu
      (Or.inr (Or.inr (Or.inr (Or.inr h))))
  · intro db' h
    obtain ⟨u2, hfind2, _, htok, hexp, hjwt, hdb'⟩ := reset_user_password_ok_elim h
    rw [hu] at hfind2
    cases hfind2
    have hfind' : findUser email db' = some
        { u with password_hash := hash_password pwd,
                 reset_token := none, reset_token_expires := none } := by
      rw [hdb', findUser_updateUser email
            (fun v => { v with password_hash := hash_password pwd,
                               reset_token := none,
                               reset_token_expires := none }) db (fun _ => rfl),
          hu]
      rfl
    exact ⟨htok, hexp, hjwt, hfind'⟩

/-- Witness for C2: at `db0` with a valid password, a mismatched token
draws a 400, and the successful redemption with the matching `tok0`
satisfies every check and commits the cleared row. -/
theorem C2_redeem_checks_witness :
    (∃ e, reset_user_password "a@b.c" (.invalid "bad") "newpassword1" db0 800 true
            = .error e ∧ e.status_code = 400) ∧
    (user0.reset_token = some tok0 ∧
     (∃ d, user0.reset_token_expires = some d ∧ ¬ d.instant < 800) ∧
     verify_password_reset_token tok0 800 = some "a@b.c" ∧
     findUser "a@b.c" db0_cleared = some
       { user0 with password_hash := hash_password "newpassword1",
                    reset_token := none, reset_token_expires := none }) :=
  ⟨(C2_redeem_checks "a@b.c" (.invalid "bad") "newpassword1" db0 800 true user0
      rfl (by decide) (by decide)).1 (by decide),
   (C2_redeem_checks "a@b.c" tok0 "newpassword1" db0 800 true user0
      rfl (by decide) (by decide)).2.2.2.2 db0_cleared rfl⟩

/-! ## Claim C3 -/

lemma security_pair_eq_none {u : UserRow} {idx : Int}
    (h : security_pair u idx = none) : idx ≠ 0 ∧ idx ≠ 1 ∧ idx ≠ 2 := by
  unfold security_pair at h
  split_ifs at h with h0 h1 h2
  exact ⟨h0, h1, h2⟩

lemma security_pair_eq_some {u : UserRow} {idx : Int} {q a : Option String}
    (h : security_pair u idx = some (q, a)) :
    (idx = 0 ∧ q = u.security_question_1 ∧ a = u.security_answer_1) ∨
    (idx = 1 ∧ q = u.security_question_2 ∧ a = u.security_answer_2) ∨
    (idx = 2 ∧ q = u.security_question_3 ∧ a = u.security_answer_3) := by
  unfold security_pair at h
  split_ifs at h with h0 h1 h2
  · simp only [Option.some.injEq, Prod.mk.injEq] at h
    exact Or.inl ⟨h0, h.1.symm, h.2.symm⟩
  · simp only [Option.some.injEq, Prod.mk.injEq] at h
    exact Or.inr (Or.inl ⟨h1, h.1.symm, h.2.symm⟩)
  · simp only [Option.some.injEq, Prod.mk.injEq] at h
    exact Or.inr (Or.inr ⟨h2, h.1.symm, h.2.symm⟩)

/-- C3: `verify_user_security_answer(email, question_index, answer)`
fails NotFound (404) when no user has that email; fails BadRequest (400)
when the index is outside {0,1,2} or the indexed question/answer pair is
not configured (absent or empty); fails BadRequest when the case- and
whitespace-normalized answer does not verify against the stored answer
hash; and on success issues the purpose-tagged (`"password_reset"`)
token expiring 30 minutes from now, persists the token and its expiry on
the row, and returns the token. -/
theorem C3_verify_security_answer_flow (email : String) (idx : Int)
    (answer : String) (db : Db) (now : Int) :
    (findUser email db = none →
      verify_user_security_answer email idx answer db now =
        .error ⟨404, msg_user_not_found⟩) ∧
    (∀ u, findUser email db = some u →
      (security_pair u idx = none →
        verify_user_security_answer email idx answer db now =
          .error ⟨400, msg_invalid_index⟩) ∧
      (∀ q a, security_pair u idx = some (q, a) →
        ((strFalsy q = true ∨ strFalsy a = true) →
          verify_user_security_answer email idx answer db now =
            .error ⟨400, msg_question_not_found⟩) ∧
        (strFalsy q = false → strFalsy a = false →
          (verify_security_answer answer (a.getD "") = false →
            verify_user_security_answer email idx answer db now =
              .error ⟨400, msg_wrong_answer⟩) ∧
          (verify_security_answer answer (a.getD "") = true →
            verify_user_security_answer email idx answer db now =
              .ok (create_password_reset_token email 30 now,
                   updateUser email
                     (fun v => { v with
                         reset_token :=
                           some (create_password_reset_token email 30 now),
                         reset_token_expires := some ⟨now + 30 * 60, true⟩ })
                     db) ∧
            create_password_reset_token email 30 now =
              .signed ⟨some email, now + 30 * 60, some "password_reset"⟩)))) := by
  constructor
  · intro h
    simp [verify_user_security_answer, h]
  · intro u hfind
    constructor
    · intro hp
      obtain ⟨h0, h1, h2⟩ := security_pair_eq_none hp
      simp [verify_user_security_answer, hfind, h0, h1, h2]
    · intro q a hp
      rcases security_pair_eq_some hp with ⟨hidx, hq, ha⟩ | ⟨hidx, hq, ha⟩ | ⟨hidx, hq, ha⟩ <;>
        [skip; skip; skip] <;>
      · subst hidx; subst hq; subst ha
        refine ⟨?_, ?_⟩
        · rintro (h | h) <;> simp [verify_user_security_answer, hfind, h]
        · intro hnq hna
          refine ⟨?_, fun hv => ⟨?_, rfl⟩⟩
          · intro hv
            simp [verify_user_security_answer, hfind, hnq, hna, hv]
          · simp [verify_user_security_answer, hfind, hnq, hna, hv]

/-- Witness for C3: at `db0`, index 0, answer " BLUE " (stored digest is
of "Blue" — exercising case/whitespace normalization), the call succeeds
with the purpose-tagged token expiring at 100 + 1800 and persists it;
index 7 draws the invalid-index BadRequest. -/
theorem C3_verify_security_answer_flow_witness :
    (verify_user_security_answer "a@b.c" 0 " BLUE " db0 100 =
      .ok (create_password_reset_token "a@b.c" 30 100,
           updateUser "a@b.c"
             (fun v => { v with
                 reset_token := some (create_password_reset_token "a@b.c" 30 100),
                 reset_token_expires := some ⟨100 + 30 * 60, true⟩ }) db0) ∧
     create_password_reset_token "a@b.c" 30 100 =
       .signed ⟨some "a@b.c", 100 + 30 * 60, some "password_reset"⟩) ∧
    verify_user_security_answer "a@b.c" 7 " BLUE " db0 100 =
      .error ⟨400, msg_invalid_index⟩ :=
  ⟨((((C3_verify_security_answer_flow "a@b.c" 0 " BLUE " db0 100).2 user0 rfl).2
      (some "What is your favorite color?") (some (hash_security_answer "Blue"))
      rfl).2 rfl rfl).2 (by decide),
   (((C3_verify_security_answer_flow "a@b.c" 7 " BLUE " db0 100).2 user0 rfl).1)
      (by decide)⟩

/-! ## Claim C4 -/

lemma updateUser_preserves_consistent {db : Db} {email : String}
    {f : UserRow → UserRow}
    (hdb : ∀ u ∈ db, resetFieldsConsistent u)
    (hf : ∀ u, resetFieldsConsistent (f u)) :
    ∀ u' ∈ updateUser email f db, resetFieldsConsistent u' := by
  intro u' hu'
  rcases mem_updateUser hu' with ⟨u, _, rfl⟩ | h
  · exact hf u
  · exact hdb u' h

/-- Elimination form of a successful `verify_user_security_answer`: the
returned token is the freshly issued one and the committed database is
the row updated with the token and its expiry. -/
lemma verify_user_security_answer_ok_elim {email : String} {idx : Int}
    {answer : String} {db : Db} {now : Int} {t : TokenStr} {db' : Db}
    (h : verify_user_security_answer email idx answer db now = .ok (t, db')) :
    t = create_password_reset_token email 30 now ∧
    db' = updateUser email
            (fun v => { v with
                reset_token := some (create_password_reset_token email 30 now),
                reset_token_expires := some ⟨now + 30 * 60, true⟩ }) db := by
  unfold verify_user_security_answer at h
  cases hfind : findUser email db with
  | none => simp only [hfind] at h; exact absurd h (by simp)
  | some u =>
    simp only [hfind] at h
    split at h
    · exact Except.noConfusion h
    · rename_i is_correct heq
      by_cases hc : is_correct = true
      · rw [if_neg (by simp [hc])] at h
        simp only [Except.ok.injEq, Prod.mk.injEq] at h
        exact ⟨h.1.symm, h.2.symm⟩
      · rw [if_pos (by simpa using hc)] at h
        exact Except.noConfusion h

/-- C4: every operation that touches the reset-token fields — security
answer verification, both redeem pathways, and plain forgot-password
issuance — leaves `reset_token` and `reset_token_expires` both present
or both absent in every database it commits: the two security-question
operations set or clear both fields together, `forgot_password` commits
an unchanged database on its only non-raising path (its issuance branch
raises `NameError` before mutating, since `create_password_reset_token`
is never imported), and the plain `reset_password` never commits at all
(every call raises `NameError`). -/
theorem C4_reset_fields_paired (db : Db)
    (hinv : ∀ u ∈ db, resetFieldsConsistent u) :
    (∀ email r db', forgot_password email db = .ok (r, db') →
       ∀ u' ∈ db', resetFieldsConsistent u') ∧
    (∀ email idx answer now t db',
       verify_user_security_answer email idx answer db now = .ok (t, db') →
       ∀ u' ∈ db', resetFieldsConsistent u') ∧
    (∀ email tok pwd now ok db',
       reset_user_password email tok pwd db now ok = .ok db' →
       ∀ u' ∈ db', resetFieldsConsistent u') ∧
    (∀ tok pwd now m db', reset_password tok pwd db now = .ok (m, db') →
       ∀ u' ∈ db', resetFieldsConsistent u') := by
  refine ⟨?_, ?_, ?_, ?_⟩
  · intro email r db' h
    unfold forgot_password at h
    cases hfind : findUser email db with
    | none =>
      simp only [hfind, Except.ok.injEq, Prod.mk.injEq] at h
      rw [← h.2]
      exact hinv
    | some u =>
      simp only [hfind] at h
      exact absurd h (by simp)
  · intro email idx answer now t db' h u' hu'
    obtain ⟨-, hdb'⟩ := verify_user_security_answer_ok_elim h
    subst hdb'
    refine updateUser_preserves_consistent hinv (fun v => ?_) u' hu'
    rfl
  · intro email tok pwd now ok db' h u' hu'
    obtain ⟨u, -, -, -, -, -, hdb'⟩ := reset_user_password_ok_elim h
    subst hdb'
    refine updateUser_preserves_consistent hinv (fun v => ?_) u' hu'
    rfl
  · intro tok pwd now m db' h
    exact absurd h (by simp [reset_password])

/-- Witness for C4: `db0` satisfies the invariant; a concrete
forgot-password call on an unknown email commits the unchanged
database, and a concrete successful security-question redemption
commits the cleared row — both committed databases satisfy the
invariant. -/
theorem C4_reset_fields_paired_witness :
    (∀ u' ∈ db0, resetFieldsConsistent u') ∧
    (∀ u' ∈ db0_cleared, resetFieldsConsistent u') :=
  ⟨(C4_reset_fields_paired db0 (by decide)).1 "x@y.z"
     ("If an account with that email exists, a password reset token has been generated.",
      .invalid "") db0 rfl,
   (C4_reset_fields_paired db0 (by decide)).2.2.1 "a@b.c" tok0 "newpassword1"
     800 true db0_cleared rfl⟩

/-! ## Claim C8 -/

/-- C8 counterexample: the claim says the plain `POST /auth/reset-password`
redemption trusts the signed token and succeeds while requiring only
that a persisted `reset_token` exist, not that the supplied token
literally match it.  At a concrete input satisfying everything the
claim deems sufficient — `tok1` validly signed and unexpired for
`a@b.c`, the row existing with a persisted token and unexpired
persisted expiry — the call instead raises
`NameError: name 'verify_password_reset_token' is not defined`
(the helper is never imported into `app/auth/routes.py`), so the
redemption does not succeed. -/
theorem C8_counterexample :
    verify_password_reset_token tok1 500 = some "a@b.c" ∧
    findUser "a@b.c" db0 = some user0 ∧
    user0.reset_token = some tok0 ∧
    tok0 ≠ tok1 ∧
    (∃ d, user0.reset_token_expires = some d ∧ ¬ d.instant < 500) ∧
    reset_password tok1 "newpassword1" db0 500 =
      .error (.exn ⟨"NameError",
        "name 'verify_password_reset_token' is not defined"⟩) :=
  ⟨rfl, rfl, rfl, by decide, ⟨⟨900, true⟩, rfl, by decide⟩, rfl⟩

/-- C8 amended: every call of the plain redemption raises `NameError`
before any check or mutation, because `app/auth/routes.py` calls
`verify_password_reset_token` without ever importing it — the pathway
never succeeds and never reads or writes the reset-token fields, so it
neither trusts the signed token alone nor performs the written (but
unreachable) persisted-token cross-check. -/
theorem C8_plain_reset_always_name_error (tok : TokenStr) (pwd : String)
    (db : Db) (now : Int) :
    reset_password tok pwd db now =
      .error (.exn ⟨"NameError",
        "name 'verify_password_reset_token' is not defined"⟩) :=
  rfl
